import Mathlib

/-!
Verification development for the Hub-authentication client library
(`jupyterhub/services/auth.py`).

The Python source is shallowly embedded:
* Python `dict`s become association lists over `String` keys, with
  `dictLookup` / `dictInsert` / `dictRemove` mirroring item access,
  item assignment and `pop`.
* The monotonic clock (`time.monotonic()`) is modelled as a `Nat`
  instant that every time-dependent operation receives explicitly.
* `KeyError` raised by `dict` access is modelled with `Option` /
  `Except`; a raised `ValueError` or tornado `HTTPError` becomes an
  explicit error value.
* External collaborators (the scope-expansion function
  `_intersect_expanded_scopes` from `..scopes`, and the HTTP transport
  used by `requests.request`) are parameters of the embedded functions,
  exactly as the spec treats them (external, consumed through a narrow
  contract).
-/

set_option autoImplicit false

/-- Lookup in a Python-style dict modelled as an association list:
`d[k]` returns the value bound to `k`, `none` when `k` is absent. -/
def dictLookup {α : Type} (l : List (String × α)) (k : String) : Option α :=
  match l with
  | [] => none
  | p :: rest => if p.fst = k then some p.snd else dictLookup rest k

/-- Assignment `d[k] = v` on a Python-style dict: replace the binding of
`k` in place when present, otherwise add a new binding. -/
def dictInsert {α : Type} (l : List (String × α)) (k : String) (v : α) :
    List (String × α) :=
  match l with
  | [] => [(k, v)]
  | p :: rest => if p.fst = k then (k, v) :: rest else p :: dictInsert rest k v

/-- `d.pop(k)` on a Python-style dict: remove the binding of `k`
(dict keys are unique, so removing every occurrence coincides with
removing the one binding on every state built through `dictInsert`). -/
def dictRemove {α : Type} (l : List (String × α)) (k : String) :
    List (String × α) :=
  match l with
  | [] => []
  | p :: rest => if p.fst = k then dictRemove rest k else p :: dictRemove rest k

/-- The key list of a Python-style dict (`list(d.keys())`). -/
def keysOf {α : Type} (l : List (String × α)) : List String :=
  l.map Prod.fst

/-- Effect of `dictInsert` on the key list alone. -/
def keysInsert : List String → String → List String
  | [], k => [k]
  | s :: rest, k => if s = k then k :: rest else s :: keysInsert rest k

/-- Effect of `dictRemove` on the key list alone. -/
def keysRemove : List String → String → List String
  | [], _ => []
  | s :: rest, k => if s = k then keysRemove rest k else s :: keysRemove rest k

/-- `_ExpiringDict`: dict-like cache for Hub API requests, from
`jupyterhub/services/auth.py`.  Field order follows `__init__`:
`max_age`, `timestamps`, `values`.  A `max_age` of `0` means cache
forever.  Timestamps are monotonic-clock instants. -/
structure ExpiringDict (α : Type) where
  max_age : Nat
  timestamps : List (String × Nat)
  values : List (String × α)

/-- `__setitem__`: store `key` and record the current timestamp `now`. -/
def ExpiringDict.setItem {α : Type} (d : ExpiringDict α) (key : String)
    (value : α) (now : Nat) : ExpiringDict α :=
  { d with
    timestamps := dictInsert d.timestamps key now
    values := dictInsert d.values key value }

/-- `_check_age`: check the timestamp for a key, evicting the entry when
`max_age > 0` and `timestamp + max_age < now`.  The `.error` case is the
`KeyError` Python would raise on `self.timestamps[key]` when `values`
holds the key but `timestamps` does not (unreachable through the public
operations, see the key-set invariant below); the state is unchanged
there because the exception fires before any `pop`. -/
def ExpiringDict.checkAge {α : Type} (d : ExpiringDict α) (key : String)
    (now : Nat) : Except Unit (ExpiringDict α) :=
  match dictLookup d.values key with
  | none => .ok d
  | some _ =>
    match dictLookup d.timestamps key with
    | none => .error ()
    | some timestamp =>
      if 0 < d.max_age ∧ timestamp + d.max_age < now then
        .ok { d with
              values := dictRemove d.values key
              timestamps := dictRemove d.timestamps key }
      else
        .ok d

/-- `__contains__`: `_check_age` first, then membership in `values`.
The pair carries the state after the eviction side effect. -/
def ExpiringDict.containsKey {α : Type} (d : ExpiringDict α) (key : String)
    (now : Nat) : Except Unit (Bool × ExpiringDict α) :=
  match d.checkAge key now with
  | .error e => .error e
  | .ok d1 => .ok ((dictLookup d1.values key).isSome, d1)

/-- `__getitem__`: `_check_age` first, then `self.values[key]`.  The
first component is `none` exactly when Python raises `KeyError` (either
inside `_check_age` or on the final `values` access); the second is the
state after the eviction side effect. -/
def ExpiringDict.getItem {α : Type} (d : ExpiringDict α) (key : String)
    (now : Nat) : Option α × ExpiringDict α :=
  match d.checkAge key now with
  | .error _ => (none, d)
  | .ok d1 => (dictLookup d1.values key, d1)

/-- `clear`: clear the cache. -/
def ExpiringDict.clear {α : Type} (d : ExpiringDict α) : ExpiringDict α :=
  { d with values := [], timestamps := [] }

/-- The `required_scopes` parameter of `check_scopes` may be a single
scope string or a set of scopes. -/
inductive RequiredScopes where
  | single (s : String)
  | scopeSet (s : Finset String)

/-- The normalisation performed at the top of `check_scopes`:
`if isinstance(required_scopes, str): required_scopes = {required_scopes}`. -/
def normalizeRequired : RequiredScopes → Finset String
  | .single s => {s}
  | .scopeSet s => s

/-- `check_scopes(required_scopes, scopes)` from
`jupyterhub/services/auth.py`, parameterised over the external
`_intersect_expanded_scopes` function imported from `..scopes`:
normalise `required_scopes`, compute the expanded intersection, then
re-intersect with the literal `required_scopes` set. -/
def check_scopes (intersectExpandedScopes : Finset String → Finset String → Finset String)
    (required_scopes : RequiredScopes) (scopes : Finset String) : Finset String :=
  let req := normalizeRequired required_scopes
  let intersection := intersectExpandedScopes req scopes
  req ∩ intersection

/-- The behaviour the spec's own example stipulates for the external
expansion function on the example inputs: requiring the broad
`read:users` against the held filtered variant yields only the filtered
variant. -/
def expandExample : Finset String → Finset String → Finset String :=
  fun _ _ => {("read:users!user=x")}

/-- Error raised by `_check_hub_authorization`:
`ValueError("cache_key is required when using cache")`. -/
inductive PyError where
  | valueError
deriving DecidableEq

/-- `HubAuth._check_hub_authorization(url, api_token, cache_key, use_cache)`.

The upstream client `self._api_request(...)` is an external effect here:
`upstream a403 i` is the identity model (possibly `None`) that the `i`-th
actual upstream call returns when invoked with `allow_403 = a403`; the
source always passes `allow_403=True`.  `calls` counts upstream calls
performed so far, so the third component of the result exposes how many
upstream calls the invocation made.  The cache is threaded explicitly. -/
def checkHubAuthorization {α : Type} (upstream : Bool → Nat → Option α)
    (cache : ExpiringDict (Option α)) (calls : Nat) (now : Nat)
    (cache_key : Option String) (use_cache : Bool) :
    Except PyError (Option α) × ExpiringDict (Option α) × Nat :=
  if use_cache then
    match cache_key with
    | none => (.error .valueError, cache, calls)
    | some key =>
      match cache.getItem key now with
      | (some v, cache1) => (.ok v, cache1, calls)
      | (none, cache1) =>
        let data := upstream true calls
        let cache2 := cache1.setItem key data now
        (.ok data, cache2, calls + 1)
  else
    let data := upstream true calls
    (.ok data, cache, calls + 1)

/-- Iterated resolver calls: one `_check_hub_authorization` call with
`use_cache=True` and the fixed `cache_key` per instant in `times`,
threading the cache and the upstream-call count. -/
def resolveMany {α : Type} (upstream : Bool → Nat → Option α) (key : String)
    (times : List Nat) (cache : ExpiringDict (Option α)) (calls : Nat) :
    List (Except PyError (Option α)) × ExpiringDict (Option α) × Nat :=
  match times with
  | [] => ([], cache, calls)
  | t :: ts =>
    let step := checkHubAuthorization upstream cache calls t (some key) true
    let rest := resolveMany upstream key ts step.2.1 step.2.2
    (step.1 :: rest.1, rest.2.1, rest.2.2)

/-- A JSON object body, as far as this client inspects one: a dict with
string fields (`r.json()` followed by `.get(...)` access). -/
abbrev JsonDict := List (String × String)

/-- An HTTP response as `_api_request` observes it: `status_code`,
`reason`, `text`, and the outcome of `r.json()` — `some fields` when the
body parses as a JSON object, `none` when `r.json()` (or the subsequent
dict access) raises. -/
structure HttpResponse where
  status_code : Nat
  reason : String
  text : String
  json : Option JsonDict

/-- Outcome of the transport call `requests.request(method, url, ...)`:
either a `requests.ConnectionError` or a response. -/
inductive TransportResult where
  | connectionError
  | response (r : HttpResponse)

/-- Classified outcome of `_api_request`: a raised tornado
`HTTPError(status, msg)`, an uncaught `r.json()` failure on a success
status, or returned data (`none` = no identity). -/
inductive ApiResult where
  | httpError (status : Nat) (msg : String)
  | jsonDecodeError
  | data (d : Option JsonDict)
deriving DecidableEq

/-- The message built in the `requests.ConnectionError` branch of
`_api_request`; `%r` on the URL is rendered with `reprStr`.  The
loopback hint is appended when `"127.0.0.1"` occurs in `api_url`. -/
def connectionErrorMsg (api_url hostname : String) : String :=
  let msg := ("Failed to connect to Hub API at ") ++ reprStr api_url ++ (".")
  let msg := msg ++ ("  Is the Hub accessible at this URL (from host: ")
    ++ hostname ++ (")?")
  if 1 < (api_url.splitOn ("127.0.0.1")).length then
    msg ++ ("  Make sure to set c.JupyterHub.hub_ip to an IP accessible to"
      ++ " single-user servers if the servers are not on the same host as the Hub.")
  else
    msg

/-- `HubAuth._api_request(method, url, ...)`, restricted to its outcome
classification (the header / client-certificate injection does not
change the classification).  `allow_403` is the popped keyword argument;
`tr` is the transport outcome. -/
def apiRequest (api_url hostname : String) (allow_403 : Bool)
    (tr : TransportResult) : ApiResult :=
  match tr with
  | .connectionError => .httpError 500 (connectionErrorMsg api_url hostname)
  | .response r =>
    if r.status_code = 403 ∧ allow_403 = true then
      .data none
    else if r.status_code = 403 then
      .httpError 500 ("Permission failure checking authorization, I may need a new token")
    else if 500 ≤ r.status_code then
      .httpError 502 ("Failed to check authorization (upstream problem)")
    else if 400 ≤ r.status_code then
      .httpError 500
        (match r.json with
         | some fields =>
           ("Failed to check authorization") ++ (": ") ++
             ((dictLookup fields ("error_description")).getD
               ((dictLookup fields ("error")).getD ("Unknown error")))
         | none => ("Failed to check authorization"))
    else
      match r.json with
      | some m => .data (some m)
      | none => .jsonDecodeError

/-- The `HubAuth` configuration traits relevant to the deprecation
observer (the `traitlets` declarations of the class). -/
structure HubAuthConfig where
  hub_host : String
  base_url : String
  api_url : String
  api_token : String
  hub_prefix_path : String
  login_url : String
  keyfile : String
  certfile : String
  client_ca : String
  cookie_options : List (String × String)
  cookie_cache_max_age : Int
  cache_max_age : Int
  oauth_scopes : Finset String

/-- A `HubAuth` instance as the deprecation observer sees it: its
configuration, its already-constructed cache instance, and the number of
deprecation warnings emitted so far (`warnings.warn` is a counted
side effect). -/
structure HubAuthState where
  config : HubAuthConfig
  cache : ExpiringDict (Option JsonDict)
  warningCount : Nat

/-- The `@observe('cookie_cache_max_age')` handler
`_deprecated_cookie_cache`: emit one deprecation warning and copy
`change.new` into `cache_max_age`. -/
def HubAuth.deprecatedCookieCache (cfg : HubAuthConfig) (changeNew : Int)
    (warningCount : Nat) : HubAuthConfig × Nat :=
  ({ cfg with cache_max_age := changeNew }, warningCount + 1)

/-- An assignment `hub_auth.cookie_cache_max_age = v`: the trait stores
`v`, then the registered observer runs once on the change. -/
def HubAuth.assignCookieCacheMaxAge (st : HubAuthState) (v : Int) : HubAuthState :=
  let cfg1 := { st.config with cookie_cache_max_age := v }
  let p := HubAuth.deprecatedCookieCache cfg1 v st.warningCount
  { st with config := p.1, warningCount := p.2 }

theorem dictLookup_insert {α : Type} (l : List (String × α)) (k : String) (v : α) :
    dictLookup (dictInsert l k v) k = some v := by
  induction l with
  | nil => simp [dictInsert, dictLookup]
  | cons p rest ih =>
    by_cases h : p.fst = k
    · simp [dictInsert, dictLookup, h]
    · simp [dictInsert, dictLookup, h, ih]

theorem dictLookup_remove {α : Type} (l : List (String × α)) (k : String) :
    dictLookup (dictRemove l k) k = none := by
  induction l with
  | nil => rfl
  | cons p rest ih =>
    by_cases h : p.fst = k
    · simp [dictRemove, h, ih]
    · simp [dictRemove, dictLookup, h, ih]

/-- Claim C1 (counterexample): on the spec's own example — required
`{read:users}`, held `{read:users!user=x}`, expansion returning
`{read:users!user=x}` — `check_scopes` returns the empty set, not the
claimed `{read:users!user=x}`: the final re-intersection with the
literal required set removes the filtered variant. -/
theorem check_scopes_refutes_filtered_result :
    check_scopes expandExample (.scopeSet {("read:users")}) {("read:users!user=x")} = ∅ ∧
    check_scopes expandExample (.scopeSet {("read:users")}) {("read:users!user=x")}
      ≠ {("read:users!user=x")} := by
  decide

/-- Claim C1 (amended): for required scopes `{read:users}` and held
scopes `{read:users!user=x}`, with the external expansion returning
`{read:users!user=x}` as the spec's example describes, `check_scopes`
returns the empty set — an empty (unauthorized) result — and in
particular never the unfiltered `read:users`. -/
theorem check_scopes_broad_required_narrow_held_empty :
    check_scopes expandExample (.scopeSet {("read:users")}) {("read:users!user=x")} = ∅ ∧
    ("read:users") ∉ check_scopes expandExample (.scopeSet {("read:users")})
      {("read:users!user=x")} := by
  decide

/-- Claim C2: whatever the external expansion function returns, the set
`check_scopes` returns is a subset of the normalised required set (the
singleton of a single scope string, or the given set), so it never
contains a scope string absent from the required set. -/
theorem check_scopes_subset_required
    (f : Finset String → Finset String → Finset String)
    (required : RequiredScopes) (scopes : Finset String) :
    check_scopes f required scopes ⊆ normalizeRequired required :=
  Finset.inter_subset_left

/-- Claim C4 (counterexample): with `use_cache = true` and the empty
string as `cache_key`, `_check_hub_authorization` does not fail — the
empty key passes the `cache_key is None` test and is used as a cache
key, so the call proceeds to the upstream client and caches under `""`. -/
theorem check_hub_authorization_empty_key_accepted :
    checkHubAuthorization (fun _ _ => some (("model") : String))
      (ExpiringDict.mk 300 [] []) 0 0 (some ("")) true
      = (.ok (some ("model")),
         (ExpiringDict.mk 300 [] [] : ExpiringDict (Option String)).setItem ("")
           (some ("model")) 0, 1) :=
  rfl

/-- Claim C4 (amended): with `use_cache = true`, a missing (`None`)
`cache_key` makes `_check_hub_authorization` fail with
`ValueError` before any upstream call or cache mutation: the cache and
the upstream-call count are returned unchanged.  (An empty-string key is
not rejected; it is accepted and used as a cache key.) -/
theorem check_hub_authorization_missing_key_value_error {α : Type}
    (upstream : Bool → Nat → Option α) (cache : ExpiringDict (Option α))
    (calls now : Nat) :
    checkHubAuthorization upstream cache calls now none true
      = (.error .valueError, cache, calls) :=
  rfl

/-- Claim C9: assigning the deprecated `cookie_cache_max_age` trait
copies the assigned value into `cache_max_age`, emits exactly one
deprecation warning, leaves every other configuration field unchanged,
and does not alter the already-constructed cache instance (in
particular its `max_age`). -/
theorem deprecated_cookie_cache_migration (st : HubAuthState) (v : Int) :
    (HubAuth.assignCookieCacheMaxAge st v).config.cookie_cache_max_age = v ∧
    (HubAuth.assignCookieCacheMaxAge st v).config.cache_max_age = v ∧
    (HubAuth.assignCookieCacheMaxAge st v).warningCount = st.warningCount + 1 ∧
    (HubAuth.assignCookieCacheMaxAge st v).cache = st.cache ∧
    (HubAuth.assignCookieCacheMaxAge st v).cache.max_age = st.cache.max_age ∧
    (HubAuth.assignCookieCacheMaxAge st v).config.hub_host = st.config.hub_host ∧
    (HubAuth.assignCookieCacheMaxAge st v).config.base_url = st.config.base_url ∧
    (HubAuth.assignCookieCacheMaxAge st v).config.api_url = st.config.api_url ∧
    (HubAuth.assignCookieCacheMaxAge st v).config.api_token = st.config.api_token ∧
    (HubAuth.assignCookieCacheMaxAge st v).config.hub_prefix_path = st.config.hub_prefix_path ∧
    (HubAuth.assignCookieCacheMaxAge st v).config.login_url = st.config.login_url ∧
    (HubAuth.assignCookieCacheMaxAge st v).config.keyfile = st.config.keyfile ∧
    (HubAuth.assignCookieCacheMaxAge st v).config.certfile = st.config.certfile ∧
    (HubAuth.assignCookieCacheMaxAge st v).config.client_ca = st.config.client_ca ∧
    (HubAuth.assignCookieCacheMaxAge st v).config.cookie_options = st.config.cookie_options ∧
    (HubAuth.assignCookieCacheMaxAge st v).config.oauth_scopes = st.config.oauth_scopes :=
  ⟨rfl, rfl, rfl, rfl, rfl, rfl, rfl, rfl, rfl, rfl, rfl, rfl, rfl, rfl, rfl, rfl⟩

/-- Claim C6: a 403 response with `allow_403 = true` yields an absent
identity (`None`) with no raised error, while the identical 403
response with `allow_403 = false` raises the fatal credential error
instead of returning a value — the two outcomes are observably
distinct. -/
theorem api_request_403_allow_missing (api_url hostname : String)
    (r : HttpResponse) (h : r.status_code = 403) :
    apiRequest api_url hostname true (.response r) = .data none ∧
    apiRequest api_url hostname false (.response r)
      = .httpError 500
          ("Permission failure checking authorization, I may need a new token") := by
  constructor
  · simp [apiRequest, h]
  · simp [apiRequest, h]

theorem api_request_403_allow_missing_witness :
    (HttpResponse.mk 403 ("Forbidden") ("") none).status_code = 403 ∧
    (apiRequest ("http://127.0.0.1:8081/hub/api") ("myhost") true
        (.response (HttpResponse.mk 403 ("Forbidden") ("") none)) = .data none ∧
      apiRequest ("http://127.0.0.1:8081/hub/api") ("myhost") false
        (.response (HttpResponse.mk 403 ("Forbidden") ("") none))
        = .httpError 500
            ("Permission failure checking authorization, I may need a new token")) :=
  ⟨rfl, api_request_403_allow_missing _ _ _ rfl⟩

/-- Claim C7: a status in `[400, 500)` other than 403 raises the fatal
request error; when the body parses as a JSON object the message is
enriched with its `error_description` field, falling back to `error`
(and to a fixed placeholder when neither is present); when the body is
not JSON the bare message is raised with the detail omitted silently.
A 404 whose body is the JSON object with field `error = not_found`
yields exactly the message `Failed to check authorization: not_found`. -/
theorem api_request_4xx_request_error (api_url hostname : String) (a403 : Bool)
    (r : HttpResponse) (h400 : 400 ≤ r.status_code) (h500 : r.status_code < 500)
    (h403 : r.status_code ≠ 403) :
    (r.json = none →
      apiRequest api_url hostname a403 (.response r)
        = .httpError 500 ("Failed to check authorization")) ∧
    (∀ fields, r.json = some fields →
      apiRequest api_url hostname a403 (.response r)
        = .httpError 500 (("Failed to check authorization") ++ (": ") ++
            ((dictLookup fields ("error_description")).getD
              ((dictLookup fields ("error")).getD ("Unknown error"))))) ∧
    apiRequest api_url hostname a403
        (.response (HttpResponse.mk 404 ("Not Found") ("")
          (some [(("error"), ("not_found"))])))
      = .httpError 500 ("Failed to check authorization: not_found") := by
  have hn5 : ¬ (500 ≤ r.status_code) := by omega
  refine ⟨?_, ?_, ?_⟩
  · intro hj
    simp [apiRequest, h403, hn5, h400, hj]
  · intro fields hj
    simp [apiRequest, h403, hn5, h400, hj]
  · simp [apiRequest, dictLookup]

theorem api_request_4xx_request_error_witness :
    (400 ≤ (HttpResponse.mk 404 ("Not Found") ("")
        (some [(("error"), ("not_found"))])).status_code ∧
      (HttpResponse.mk 404 ("Not Found") ("")
        (some [(("error"), ("not_found"))])).status_code < 500 ∧
      (HttpResponse.mk 404 ("Not Found") ("")
        (some [(("error"), ("not_found"))])).status_code ≠ 403) ∧
    apiRequest ("http://127.0.0.1:8081/hub/api") ("myhost") false
        (.response (HttpResponse.mk 404 ("Not Found") ("")
          (some [(("error"), ("not_found"))])))
      = .httpError 500 ("Failed to check authorization: not_found") :=
  ⟨⟨by decide, by decide, by decide⟩,
    (api_request_4xx_request_error ("http://127.0.0.1:8081/hub/api") ("myhost") false
      (HttpResponse.mk 404 ("Not Found") ("") (some [(("error"), ("not_found"))]))
      (by decide) (by decide) (by decide)).2.2⟩

/-- Claim C5: for `max_age > 0`, after `set(key, value)` at monotonic
time `t`, `get` returns the value and `contains` returns `true` at every
time strictly before `t + max_age`; at any time with
`now - timestamp > max_age`, `get` raises `KeyError` (the `none`
outcome), `contains` returns `false`, and either operation removes the
stale entry — both maps lose the key — as a side effect of the read. -/
theorem expiring_dict_ttl_boundary {α : Type} (d : ExpiringDict α) (k : String)
    (v : α) (t : Nat) (hma : 0 < d.max_age) :
    (∀ now, now < t + d.max_age →
        (d.setItem k v t).getItem k now = (some v, d.setItem k v t) ∧
        (d.setItem k v t).containsKey k now = .ok (true, d.setItem k v t)) ∧
    (∀ now, d.max_age < now - t →
        ((d.setItem k v t).getItem k now).1 = none ∧
        dictLookup ((d.setItem k v t).getItem k now).2.values k = none ∧
        dictLookup ((d.setItem k v t).getItem k now).2.timestamps k = none ∧
        ∃ d2, (d.setItem k v t).containsKey k now = .ok (false, d2) ∧
          dictLookup d2.values k = none ∧ dictLookup d2.timestamps k = none) := by
  constructor
  · intro now hnow
    have hc : ¬ (0 < d.max_age ∧ t + d.max_age < now) := by omega
    constructor
    · simp [ExpiringDict.getItem, ExpiringDict.checkAge, ExpiringDict.setItem,
        dictLookup_insert, hc]
    · simp [ExpiringDict.containsKey, ExpiringDict.checkAge, ExpiringDict.setItem,
        dictLookup_insert, hc]
  · intro now hnow
    have hc : 0 < d.max_age ∧ t + d.max_age < now := ⟨hma, by omega⟩
    refine ⟨?_, ?_, ?_, ?_⟩
    · simp [ExpiringDict.getItem, ExpiringDict.checkAge, ExpiringDict.setItem,
        dictLookup_insert, dictLookup_remove, hc]
    · simp [ExpiringDict.getItem, ExpiringDict.checkAge, ExpiringDict.setItem,
        dictLookup_insert, dictLookup_remove, hc]
    · simp [ExpiringDict.getItem, ExpiringDict.checkAge, ExpiringDict.setItem,
        dictLookup_insert, dictLookup_remove, hc]
    · refine ⟨{ d.setItem k v t with
          values := dictRemove (d.setItem k v t).values k
          timestamps := dictRemove (d.setItem k v t).timestamps k }, ?_, ?_, ?_⟩
      · simp [ExpiringDict.containsKey, ExpiringDict.checkAge, ExpiringDict.setItem,
          dictLookup_insert, dictLookup_remove, hc]
      · simp [ExpiringDict.setItem, dictLookup_remove]
      · simp [ExpiringDict.setItem, dictLookup_remove]

theorem expiring_dict_ttl_boundary_witness :
    0 < (ExpiringDict.mk 5 [] [] : ExpiringDict String).max_age ∧
    ((∀ now, now < 10 + (ExpiringDict.mk 5 [] [] : ExpiringDict String).max_age →
        ((ExpiringDict.mk 5 [] [] : ExpiringDict String).setItem ("k") ("v") 10).getItem
            ("k") now
          = (some ("v"),
             (ExpiringDict.mk 5 [] [] : ExpiringDict String).setItem ("k") ("v") 10) ∧
        ((ExpiringDict.mk 5 [] [] : ExpiringDict String).setItem ("k") ("v") 10).containsKey
            ("k") now
          = .ok (true,
             (ExpiringDict.mk 5 [] [] : ExpiringDict String).setItem ("k") ("v") 10)) ∧
     (∀ now, (ExpiringDict.mk 5 [] [] : ExpiringDict String).max_age < now - 10 →
        (((ExpiringDict.mk 5 [] [] : ExpiringDict String).setItem ("k") ("v") 10).getItem
            ("k") now).1 = none ∧
        dictLookup (((ExpiringDict.mk 5 [] [] : ExpiringDict String).setItem ("k")
            ("v") 10).getItem ("k") now).2.values ("k") = none ∧
        dictLookup (((ExpiringDict.mk 5 [] [] : ExpiringDict String).setItem ("k")
            ("v") 10).getItem ("k") now).2.timestamps ("k") = none ∧
        ∃ d2, ((ExpiringDict.mk 5 [] [] : ExpiringDict String).setItem ("k")
            ("v") 10).containsKey ("k") now = .ok (false, d2) ∧
          dictLookup d2.values ("k") = none ∧ dictLookup d2.timestamps ("k") = none)) :=
  ⟨by decide, expiring_dict_ttl_boundary (ExpiringDict.mk 5 [] []) ("k") ("v") 10 (by decide)⟩

/-- A read-only cache operation: a `get` (`__getitem__`) or a membership
test (`__contains__`) on some key at some instant. -/
inductive ReadOp where
  | get (key : String) (now : Nat)
  | has (key : String) (now : Nat)

/-- The state left behind by one read-only operation (the value or
boolean returned is discarded; a raised `KeyError` leaves the state
unchanged). -/
def applyRead {α : Type} (d : ExpiringDict α) : ReadOp → ExpiringDict α
  | .get k now => (d.getItem k now).2
  | .has k now =>
    match d.containsKey k now with
    | .ok p => p.2
    | .error _ => d

/-- The state after a sequence of read-only operations. -/
def applyReads {α : Type} (d : ExpiringDict α) : List ReadOp → ExpiringDict α
  | [] => d
  | op :: ops => applyReads (applyRead d op) ops

theorem checkAge_max_age_zero {α : Type} (d : ExpiringDict α) (h : d.max_age = 0)
    (k : String) (now : Nat) :
    d.checkAge k now = .ok d ∨ d.checkAge k now = .error () := by
  rcases hv : dictLookup d.values k with _ | v
  · simp [ExpiringDict.checkAge, hv]
  · rcases ht : dictLookup d.timestamps k with _ | ts
    · simp [ExpiringDict.checkAge, hv, ht]
    · have hc : ¬ (0 < d.max_age ∧ ts + d.max_age < now) := by omega
      simp [ExpiringDict.checkAge, hv, ht, hc]

theorem applyRead_max_age_zero {α : Type} (d : ExpiringDict α) (h : d.max_age = 0)
    (op : ReadOp) : applyRead d op = d := by
  cases op with
  | get k now =>
    rcases checkAge_max_age_zero d h k now with hk | hk <;>
      simp [applyRead, ExpiringDict.getItem, hk]
  | has k now =>
    rcases checkAge_max_age_zero d h k now with hk | hk <;>
      simp [applyRead, ExpiringDict.containsKey, hk]

theorem applyReads_max_age_zero {α : Type} (d : ExpiringDict α) (h : d.max_age = 0)
    (ops : List ReadOp) : applyReads d ops = d := by
  induction ops with
  | nil => rfl
  | cons op ops ih =>
    simp [applyReads, applyRead_max_age_zero d h op, ih]

/-- Claim C8: with `max_age = 0` the cache never expires: after
`set(key, value)` — whatever reads (on any keys, at any instants)
intervene — the state is unchanged by the reads and `get(key)` returns
exactly the stored value at any later instant, including an
absent/`None` stored value (`α` may itself be an `Option`). -/
theorem expiring_dict_max_age_zero_never_expires {α : Type} (d : ExpiringDict α)
    (k : String) (v : α) (t : Nat) (ops : List ReadOp) (h : d.max_age = 0) :
    applyReads (d.setItem k v t) ops = d.setItem k v t ∧
    ∀ now, (applyReads (d.setItem k v t) ops).getItem k now
      = (some v, d.setItem k v t) := by
  have hz : (d.setItem k v t).max_age = 0 := h
  have hAll := applyReads_max_age_zero (d.setItem k v t) hz ops
  refine ⟨hAll, ?_⟩
  intro now
  rw [hAll]
  have hc : ¬ (0 < d.max_age ∧ t + d.max_age < now) := by omega
  simp [ExpiringDict.getItem, ExpiringDict.checkAge, ExpiringDict.setItem,
    dictLookup_insert, hc]

theorem expiring_dict_max_age_zero_never_expires_witness :
    (ExpiringDict.mk 0 [] [] : ExpiringDict (Option String)).max_age = 0 ∧
    (applyReads ((ExpiringDict.mk 0 [] [] : ExpiringDict (Option String)).setItem
          ("k") none 3) [ReadOp.get ("k") 1000, ReadOp.has ("q") 5]
        = (ExpiringDict.mk 0 [] [] : ExpiringDict (Option String)).setItem ("k") none 3 ∧
      ∀ now, (applyReads ((ExpiringDict.mk 0 [] [] : ExpiringDict (Option String)).setItem
            ("k") none 3) [ReadOp.get ("k") 1000, ReadOp.has ("q") 5]).getItem ("k") now
        = (some none,
           (ExpiringDict.mk 0 [] [] : ExpiringDict (Option String)).setItem ("k") none 3)) :=
  ⟨rfl, expiring_dict_max_age_zero_never_expires (ExpiringDict.mk 0 [] []) ("k") none 3
    [ReadOp.get ("k") 1000, ReadOp.has ("q") 5] rfl⟩

theorem keysOf_insert {α : Type} (l : List (String × α)) (k : String) (v : α) :
    keysOf (dictInsert l k v) = keysInsert (keysOf l) k := by
  induction l with
  | nil => rfl
  | cons p rest ih =>
    by_cases h : p.fst = k
    · simp [dictInsert, keysOf, keysInsert, h]
    · simp [dictInsert, keysOf, keysInsert, h] at *
      exact ih

theorem keysOf_remove {α : Type} (l : List (String × α)) (k : String) :
    keysOf (dictRemove l k) = keysRemove (keysOf l) k := by
  induction l with
  | nil => rfl
  | cons p rest ih =>
    by_cases h : p.fst = k
    · simp [dictRemove, keysOf, keysRemove, h] at *
      exact ih
    · simp [dictRemove, keysOf, keysRemove, h] at *
      exact ih

theorem dictLookup_isSome_iff {α : Type} (l : List (String × α)) (k : String) :
    (dictLookup l k).isSome ↔ k ∈ keysOf l := by
  induction l with
  | nil => simp [dictLookup, keysOf]
  | cons p rest ih =>
    by_cases h : p.fst = k
    · simp [dictLookup, keysOf, h]
    · simp [dictLookup, keysOf, h, ih, Ne.symm h]

/-- The key-set invariant of `_ExpiringDict`: the `values` dict and the
`timestamps` dict always bind exactly the same keys. -/
def ExpiringDict.Inv {α : Type} (d : ExpiringDict α) : Prop :=
  keysOf d.values = keysOf d.timestamps

/-- Claim C10: the cache's value map and timestamp map always have the
same key set.  From any state satisfying the invariant, every operation
— `set`, the internal staleness check, `get`, `contains`, and `clear` —
yields a state satisfying it again (and the staleness check never hits
its `KeyError` branch), so a key has a stored value if and only if it
has a recorded timestamp. -/
theorem expiring_dict_keyset_invariant {α : Type} (d : ExpiringDict α) (h : d.Inv) :
    (∀ k v t, (d.setItem k v t).Inv) ∧
    (∀ k now, ∃ d1, d.checkAge k now = .ok d1 ∧ d1.Inv) ∧
    (∀ k now, ((d.getItem k now).2).Inv) ∧
    (∀ k now, ∃ b d1, d.containsKey k now = .ok (b, d1) ∧ d1.Inv) ∧
    d.clear.Inv ∧
    (∀ k, (dictLookup d.values k).isSome ↔ (dictLookup d.timestamps k).isSome) := by
  have hCheck : ∀ k now, ∃ d1, d.checkAge k now = .ok d1 ∧ d1.Inv := by
    intro k now
    rcases hv : dictLookup d.values k with _ | v
    · exact ⟨d, by simp [ExpiringDict.checkAge, hv], h⟩
    · have h1 : k ∈ keysOf d.values := by
        rw [← dictLookup_isSome_iff, hv]
        rfl
      have h2 : k ∈ keysOf d.timestamps := h ▸ h1
      have h3 : (dictLookup d.timestamps k).isSome := (dictLookup_isSome_iff _ _).mpr h2
      rcases ht : dictLookup d.timestamps k with _ | ts
      · rw [ht] at h3
        simp at h3
      · by_cases hc : 0 < d.max_age ∧ ts + d.max_age < now
        · have hd1 : d.checkAge k now
              = .ok (ExpiringDict.mk d.max_age (dictRemove d.timestamps k)
                  (dictRemove d.values k)) := by
            simp [ExpiringDict.checkAge, hv, ht, hc]
          refine ⟨_, hd1, ?_⟩
          show keysOf (dictRemove d.values k) = keysOf (dictRemove d.timestamps k)
          rw [keysOf_remove, keysOf_remove, h]
        · exact ⟨d, by simp [ExpiringDict.checkAge, hv, ht, hc], h⟩
  refine ⟨?_, hCheck, ?_, ?_, ?_, ?_⟩
  · intro k v t
    show keysOf (dictInsert d.values k v) = keysOf (dictInsert d.timestamps k t)
    rw [keysOf_insert, keysOf_insert, h]
  · intro k now
    rcases hCheck k now with ⟨d1, hEq, hInv⟩
    have hst : (d.getItem k now).2 = d1 := by
      simp [ExpiringDict.getItem, hEq]
    rw [hst]
    exact hInv
  · intro k now
    rcases hCheck k now with ⟨d1, hEq, hInv⟩
    exact ⟨(dictLookup d1.values k).isSome, d1,
      by simp [ExpiringDict.containsKey, hEq], hInv⟩
  · rfl
  · intro k
    rw [dictLookup_isSome_iff, dictLookup_isSome_iff, h]

theorem expiring_dict_keyset_invariant_witness :
    (ExpiringDict.mk 2 [(("k"), 5)] [(("k"), ("v"))] : ExpiringDict String).Inv ∧
    ((∀ k v t, ((ExpiringDict.mk 2 [(("k"), 5)] [(("k"), ("v"))] : ExpiringDict
        String).setItem k v t).Inv) ∧
      (∀ k now, ∃ d1, (ExpiringDict.mk 2 [(("k"), 5)] [(("k"), ("v"))] : ExpiringDict
        String).checkAge k now = .ok d1 ∧ d1.Inv) ∧
      (∀ k now, (((ExpiringDict.mk 2 [(("k"), 5)] [(("k"), ("v"))] : ExpiringDict
        String).getItem k now).2).Inv) ∧
      (∀ k now, ∃ b d1, (ExpiringDict.mk 2 [(("k"), 5)] [(("k"), ("v"))] : ExpiringDict
        String).containsKey k now = .ok (b, d1) ∧ d1.Inv) ∧
      (ExpiringDict.mk 2 [(("k"), 5)] [(("k"), ("v"))] : ExpiringDict String).clear.Inv ∧
      (∀ k, (dictLookup (ExpiringDict.mk 2 [(("k"), 5)] [(("k"), ("v"))] : ExpiringDict
          String).values k).isSome
        ↔ (dictLookup (ExpiringDict.mk 2 [(("k"), 5)] [(("k"), ("v"))] : ExpiringDict
          String).timestamps k).isSome)) :=
  ⟨rfl, expiring_dict_keyset_invariant (ExpiringDict.mk 2 [(("k"), 5)] [(("k"), ("v"))]) rfl⟩

theorem resolveMany_hits {α : Type} (upstream : Bool → Nat → Option α) (key : String)
    (v : Option α) (t0 : Nat) (cache1 : ExpiringDict (Option α))
    (hv : dictLookup cache1.values key = some v)
    (ht : dictLookup cache1.timestamps key = some t0) :
    ∀ (times : List Nat) (calls : Nat),
      (∀ t ∈ times, ¬ (0 < cache1.max_age ∧ t0 + cache1.max_age < t)) →
      resolveMany upstream key times cache1 calls
        = (times.map (fun _ => Except.ok v), cache1, calls) := by
  intro times
  induction times with
  | nil =>
    intro calls _
    rfl
  | cons t ts ih =>
    intro calls hwin
    have hc := hwin t (List.mem_cons_self _ _)
    have hstep : checkHubAuthorization upstream cache1 calls t (some key) true
        = (.ok v, cache1, calls) := by
      simp [checkHubAuthorization, ExpiringDict.getItem, ExpiringDict.checkAge,
        hv, ht, hc]
    have h2 := ih calls (fun x hx => hwin x (List.mem_cons_of_mem _ hx))
    simp [resolveMany, hstep, h2]

/-- Claim C3: with `use_cache = true` and a fixed cache key, starting
from a cache miss, N ≥ 1 resolver calls inside one TTL window make
exactly one upstream call: the first call invokes the upstream client
once with `allow_403 = true` and stores its result — present or absent
— under the key before returning it, and every later call in the window
returns that cached value (including a cached `None`) with no further
upstream call. -/
theorem check_hub_authorization_single_upstream_call {α : Type}
    (upstream : Bool → Nat → Option α) (cache : ExpiringDict (Option α))
    (key : String) (t0 : Nat) (rest : List Nat)
    (hmiss : dictLookup cache.values key = none)
    (hwin : ∀ t ∈ rest, ¬ (0 < cache.max_age ∧ t0 + cache.max_age < t)) :
    resolveMany upstream key (t0 :: rest) cache 0
      = (Except.ok (upstream true 0)
           :: rest.map (fun _ => Except.ok (upstream true 0)),
         cache.setItem key (upstream true 0) t0, 1) := by
  have hstep : checkHubAuthorization upstream cache 0 t0 (some key) true
      = (.ok (upstream true 0), cache.setItem key (upstream true 0) t0, 1) := by
    simp [checkHubAuthorization, ExpiringDict.getItem, ExpiringDict.checkAge, hmiss]
  have hv : dictLookup (cache.setItem key (upstream true 0) t0).values key
      = some (upstream true 0) := by
    simp [ExpiringDict.setItem, dictLookup_insert]
  have ht : dictLookup (cache.setItem key (upstream true 0) t0).timestamps key
      = some t0 := by
    simp [ExpiringDict.setItem, dictLookup_insert]
  have h2 := resolveMany_hits upstream key (upstream true 0) t0 _ hv ht rest 1 hwin
  simp [resolveMany, hstep, h2]

theorem check_hub_authorization_single_upstream_call_witness :
    (dictLookup (ExpiringDict.mk 300 [] [] : ExpiringDict (Option String)).values
        ("k") = none ∧
      ∀ t ∈ [10, 200, 300],
        ¬ (0 < (ExpiringDict.mk 300 [] [] : ExpiringDict (Option String)).max_age ∧
           0 + (ExpiringDict.mk 300 [] [] : ExpiringDict (Option String)).max_age < t)) ∧
    resolveMany (fun _ _ => (none : Option String)) ("k") (0 :: [10, 200, 300])
        (ExpiringDict.mk 300 [] []) 0
      = (Except.ok none :: [10, 200, 300].map (fun _ => Except.ok none),
         (ExpiringDict.mk 300 [] [] : ExpiringDict (Option String)).setItem ("k")
           none 0, 1) :=
  ⟨⟨rfl, by decide⟩,
    check_hub_authorization_single_upstream_call (fun _ _ => (none : Option String))
      (ExpiringDict.mk 300 [] []) ("k") 0 [10, 200, 300] rfl (by decide)⟩
